import Mathlib

/-!
Verification model of the OpenAlex energy-hub collector
(`src/openalex_final.py`, class `OpenAlexEnergyHubCollector`).

Python dictionaries with possibly absent or JSON-null fields are modelled
with the `PyField` type below: `absent` is a missing key, `null` a key bound
to `None`, `val a` a key bound to a proper value.  `dict.get(key, default)`
returns the default only when the key is absent; a `None` value is returned
as-is, which is why several stored record fields are `Option`-typed
(`none` standing for a stored Python `None`).
-/

/-- A possibly-absent, possibly-null field of a loosely structured record. -/
inductive PyField (α : Type) where
  | absent : PyField α
  | null : PyField α
  | val : α → PyField α
deriving DecidableEq, Repr

namespace PyField

/-- `d.get key default` for a present-or-absent field: the default is used
only when the key is absent; a null value comes back as Python `None`
(`Option.none` here). -/
def get {α : Type} : PyField α → α → Option α
  | .absent, d => some d
  | .null, _ => none
  | .val a, _ => some a

/-- `d.get key` with no default: absent and null both give Python `None`. -/
def getN {α : Type} : PyField α → Option α
  | .absent => none
  | .null => none
  | .val a => some a

end PyField

/-- Re-package a stored Python value (`None` or a proper value) as the
value of an always-present dictionary key. -/
def optToField {α : Type} : Option α → PyField α
  | none => PyField.null
  | some a => PyField.val a

/-- An author entry as stored by the normalizer:
`name := author.get('display_name', '')`, `orcid := author.get('orcid')`. -/
structure Author where
  name : Option String
  orcid : Option String
deriving DecidableEq, Repr

/-- The internal paper record (the dictionary built by `search_works` /
`search_by_abstract`).  Keys that `search_by_abstract` does not create at
all (`doi`, `open_access`, `venue`, `authors`) are `PyField`-typed so that a
missing key is distinguishable from a stored value. -/
structure Paper where
  id : Option String
  title : Option String
  year : Option Int
  doi : PyField String
  citation_count : Option Int
  open_access : PyField Bool
  venue : PyField String
  authors : PyField (List Author)
  search_term : String
  category : String
  source : String
deriving DecidableEq, Repr

/-- `work['open_access']` sub-object of a raw OpenAlex work. -/
structure RawOpenAccess where
  is_oa : PyField Bool
deriving DecidableEq, Repr

/-- `primary_location['source']` sub-object of a raw work. -/
structure RawSource where
  display_name : PyField String
deriving DecidableEq, Repr

/-- `work['primary_location']` sub-object of a raw work. -/
structure RawLocation where
  source : PyField RawSource
deriving DecidableEq, Repr

/-- `authorship['author']` sub-object of a raw work. -/
structure RawAuthor where
  display_name : PyField String
  orcid : PyField String
deriving DecidableEq, Repr

/-- One entry of `work['authorships']`. -/
structure RawAuthorship where
  author : PyField RawAuthor
deriving DecidableEq, Repr

/-- A raw OpenAlex work record, restricted to the fields the collector
reads. -/
structure RawWork where
  id : PyField String
  display_name : PyField String
  publication_year : PyField Int
  doi : PyField String
  cited_by_count : PyField Int
  open_access : PyField RawOpenAccess
  primary_location : PyField RawLocation
  authorships : PyField (List RawAuthorship)
deriving DecidableEq, Repr

/-- `work.get('open_access', {}).get('is_oa', False)` (line 83).  A null
`open_access` value makes the second `.get` an attribute access on `None`,
which raises. -/
def extract_open_access (w : RawWork) : Except String (PyField Bool) :=
  match w.open_access with
  | .absent => .ok (.val false)
  | .null => .error ("AttributeError: NoneType object has no attribute get")
  | .val oa =>
    .ok (match oa.is_oa with
         | .absent => .val false
         | .null => .null
         | .val b => .val b)

/-- Body of the author loop (lines 101-107): `authorship.get('author', {})`
is appended only when truthy (a present, non-empty dict). -/
def extract_one_author (a : RawAuthorship) : Option Author :=
  match a.author with
  | .val au => some { name := au.display_name.get "", orcid := au.orcid.getN }
  | _ => none

/-- `work.get('authorships', [])[:10]` with the per-entry author loop
(lines 100-107).  Slicing a null `authorships` value raises. -/
def extract_authors (w : RawWork) : Except String (List Author) :=
  match w.authorships with
  | .absent => .ok []
  | .null => .error ("TypeError: NoneType object is not subscriptable")
  | .val l => .ok ((l.take 10).filterMap extract_one_author)

/-- Venue extraction (lines 92-97): two truthiness-guarded levels of
nesting, keeping the initial `''` when either level is absent, null or
empty. -/
def extract_venue (w : RawWork) : Option String :=
  match w.primary_location with
  | .val loc =>
    match loc.source with
    | .val src => src.display_name.get ""
    | _ => some ""
  | _ => some ""

/-- The paper dictionary built for one raw work inside `search_works`
(lines 76-107).  The `open_access` extraction is evaluated during dict
construction, before the venue block and the author loop, so its failure
wins when both it and the author slice would raise. -/
def normalize_work (w : RawWork) (q c : String) : Except String Paper :=
  match extract_open_access w with
  | .error e => .error e
  | .ok oa =>
    match extract_authors w with
    | .error e => .error e
    | .ok auths =>
      .ok { id := w.id.get "", title := w.display_name.get "",
            year := w.publication_year.getN,
            doi := optToField w.doi.getN,
            citation_count := w.cited_by_count.get 0,
            open_access := oa,
            venue := optToField (extract_venue w),
            authors := .val auths,
            search_term := q, category := c, source := "openalex" }

/-- `paper['year'] and 2020 <= paper['year'] <= 2025` (line 110):
Python truthiness makes `None` and `0` fail the first conjunct. -/
def yearOk (p : Paper) : Bool :=
  match p.year with
  | none => false
  | some y => y != 0 && decide (2020 ≤ y) && decide (y ≤ 2025)

/-- Per-page processing loop of `search_works` (lines 76-111): each work
is normalized and, when its year passes, appended.  The boolean flags an
exception raised mid-page, which keeps the papers appended so far. -/
def processPage (works : List RawWork) (q c : String) : List Paper × Bool :=
  match works with
  | [] => ([], false)
  | w :: ws =>
    match normalize_work w q c with
    | .error _ => ([], true)
    | .ok p =>
      let rest := processPage ws q c
      ((if yearOk p then [p] else []) ++ rest.1, rest.2)

/-- Outcome of one `requests.get` for a page: a transport-level exception,
or a parsed response with a status code, a results array and the
`meta.count` total. -/
inductive ApiOutcome where
  | exn : ApiOutcome
  | resp (status : Nat) (results : List RawWork) (count : Nat) : ApiOutcome
deriving DecidableEq

/-- The `while True` pagination loop of `search_works` (lines 58-123),
returning the accumulated papers and the number of page requests issued.
`fuel` counts the remaining allowed increments of `page`: the loop body at
page `p` runs with `fuel = 10 - p`, so `fuel = 0` is exactly the
`page > 10` safety break after the increment.  The `count ≤ 200 * page`
test is `page >= meta.get('count', 0) / params['per-page']` with
`per-page = 200`. -/
def fetchGo (api : Nat → ApiOutcome) (q c : String) :
    Nat → Nat → List Paper → Nat → List Paper × Nat
  | fuel, page, acc, reqs =>
    match api page with
    | .exn => (acc, reqs + 1)
    | .resp status results count =>
      if status != 200 then (acc, reqs + 1)
      else if results.isEmpty then (acc, reqs + 1)
      else
        let pr := processPage results q c
        if pr.2 then (acc ++ pr.1, reqs + 1)
        else if decide (count ≤ 200 * page) then (acc ++ pr.1, reqs + 1)
        else
          match fuel with
          | 0 => (acc ++ pr.1, reqs + 1)
          | f + 1 => fetchGo api q c f (page + 1) (acc ++ pr.1) (reqs + 1)

/-- `search_works` (lines 32-129) against an abstract API: pages start at
1, the year-range arguments only shape the request filter string and never
the local year test. -/
def search_works (api : Nat → ApiOutcome) (q c : String)
    (year_start : Int := 2004) (year_end : Int := 2025) : List Paper × Nat :=
  fetchGo api q c 9 1 [] 0

/-- `search_by_abstract` (lines 131-175): a single page request; any
non-200 status or exception yields `[]`; kept records carry no `doi`,
`open_access`, `venue` or `authors` keys. -/
def search_by_abstract (r : ApiOutcome) (q c : String)
    (year_start : Int := 2020) (year_end : Int := 2025) : List Paper :=
  match r with
  | .exn => []
  | .resp status results _ =>
    if status == 200 then
      results.filterMap (fun w =>
        match w.publication_year.getN with
        | none => none
        | some y =>
          if y != 0 && decide (2020 ≤ y) && decide (y ≤ 2025) then
            some { id := w.id.get "", title := w.display_name.get "",
                   year := some y, doi := PyField.absent,
                   citation_count := w.cited_by_count.get 0,
                   open_access := PyField.absent, venue := PyField.absent,
                   authors := PyField.absent,
                   search_term := q, category := c,
                   source := "openalex_abstract" }
          else none)
    else []

/-- Truthiness of the stored `paper['id']` value: `None` and `''` are
falsy. -/
def pyTruthyStrOpt : Option String → Bool
  | none => false
  | some s => s != ""

/-- The string payload of a stored id (only consulted when truthy). -/
def idStr (p : Paper) : String :=
  match p.id with
  | some s => s
  | none => ""

/-- `str.lower()`, character by character. -/
def pyLower (s : String) : String :=
  String.mk (s.data.map Char.toLower)

/-- `str.strip()`: drop whitespace from both ends. -/
def pyStrip (s : String) : String :=
  String.mk
    (((s.data.dropWhile Char.isWhitespace).reverse.dropWhile
        Char.isWhitespace).reverse)

/-- `str(paper.get('title', '')).lower().strip()` (line 223):
`str(None)` is the literal string `"None"`. -/
def normalize_title (t : Option String) : String :=
  pyStrip (pyLower (match t with
    | none => "None"
    | some s => s))

/-- The left-to-right pass of `remove_duplicates` (lines 220-230) with its
two seen-sets threaded through.  A paper kept through the id branch does
not record its title, and a paper kept through the title branch does not
record its id. -/
def removeDupGo : List Paper → List String → List String → List Paper
  | [], _, _ => []
  | p :: ps, seenIds, seenTitles =>
    if pyTruthyStrOpt p.id && !(seenIds.contains (idStr p)) then
      p :: removeDupGo ps (idStr p :: seenIds) seenTitles
    else if normalize_title p.title != "" &&
        !(seenTitles.contains (normalize_title p.title)) then
      p :: removeDupGo ps seenIds (normalize_title p.title :: seenTitles)
    else removeDupGo ps seenIds seenTitles

/-- `remove_duplicates` (lines 212-232). -/
def remove_duplicates (papers : List Paper) : List Paper :=
  removeDupGo papers [] []

/-- The year/category admission test of `save_annual_summary_csvs`
(line 398): `year and isinstance(year, (int, float)) and 2020 <= year <= 2025`,
returning `int(year)` when it passes. -/
def annual_year (p : Paper) : Option Int :=
  match p.year with
  | none => none
  | some y =>
    if y != 0 && decide (2020 ≤ y) && decide (y ≤ 2025) then some y else none

/-- Truthiness of `paper.get('open_access', False)` (lines 425-426): only
a stored `True` counts; an absent key, a stored `None` and a stored
`False` are all falsy. -/
def oaTruthy (p : Paper) : Bool :=
  match p.open_access with
  | .val b => b
  | _ => false

/-- `sum(1 for p in group if p.get('open_access', False))`. -/
def oa_count (l : List Paper) : Nat :=
  (l.filter oaTruthy).length

/-- `sum(p.get('citation_count', 0) for p in group)` (lines 416-417): the
key is always present on collected papers, so a stored `None` (a null
`cited_by_count` in the raw record) reaches the addition and raises. -/
def py_sum_citations : List Paper → Except String Int
  | [] => .ok 0
  | p :: ps =>
    match p.citation_count with
    | none => .error ("TypeError: unsupported operand type for int + NoneType")
    | some c =>
      match py_sum_citations ps with
      | .error e => .error e
      | .ok s => .ok (c + s)

/-- One row of the `summary_stats` table of `save_annual_summary_csvs`
(lines 409-447), restricted to the count, citation and open-access fields
(the rounded averages and percentages are presentation-only and no claim
reads them). -/
structure SummaryRow where
  year : Int
  core_papers : Nat
  related_papers : Nat
  total_papers : Nat
  core_citations : Int
  related_citations : Int
  total_citations : Int
  core_open_access : Nat
  related_open_access : Nat
  total_open_access : Nat
deriving DecidableEq, Repr

/-- The `summary_stats` row for one year (lines 409-447): the per-category
lists are the papers of that year in input order, and every `total_*`
field is computed as the sum of the two category fields. -/
def summary_stats_row (papers : List Paper) (y : Int) :
    Except String SummaryRow :=
  let yearPapers := papers.filter (fun p => annual_year p == some y)
  let core := yearPapers.filter (fun p => p.category == "core")
  let related := yearPapers.filter (fun p => p.category == "related")
  match py_sum_citations core with
  | .error e => .error e
  | .ok cc =>
    match py_sum_citations related with
    | .error e => .error e
    | .ok rc =>
      .ok { year := y,
            core_papers := core.length,
            related_papers := related.length,
            total_papers := core.length + related.length,
            core_citations := cc,
            related_citations := rc,
            total_citations := cc + rc,
            core_open_access := oa_count core,
            related_open_access := oa_count related,
            total_open_access := oa_count core + oa_count related }

/-- `sorted(annual_data.keys())`: the distinct admitted years in ascending
order.  Admitted years all lie in 2020-2025, so filtering that range
ascending reproduces the sorted key set. -/
def years_present (papers : List Paper) : List Int :=
  (((List.range 6).map (fun i => (2020 : Int) + i)).filter
    (fun y => papers.any (fun p => annual_year p == some y)))

/-- Row construction loop over the sorted years. -/
def summaryRowsGo (papers : List Paper) : List Int → Except String (List SummaryRow)
  | [] => .ok []
  | y :: ys =>
    match summary_stats_row papers y with
    | .error e => .error e
    | .ok r =>
      match summaryRowsGo papers ys with
      | .error e => .error e
      | .ok rs => .ok (r :: rs)

/-- The annual summary table built by `save_annual_summary_csvs`
(lines 391-447), one row per year present, ascending. -/
def annual_summary_stats (papers : List Paper) : Except String (List SummaryRow) :=
  summaryRowsGo papers (years_present papers)

/-- The year-over-year growth computation shared by
`save_annual_summary_csvs` (lines 526-533) and
`create_publication_trend_chart` (lines 596-603): for each adjacent pair
of totals, `((curr - prev) / prev * 100) if prev > 0 else 0`. -/
def growth_rates : List Nat → List ℚ
  | [] => []
  | [_] => []
  | a :: b :: rest =>
    (if 0 < a then (((b : ℚ) - (a : ℚ)) / (a : ℚ)) * 100 else 0) ::
      growth_rates (b :: rest)

/-- Growth rates of an annual summary table, computed from its
`total_papers` column. -/
def summary_growth (rows : List SummaryRow) : List ℚ :=
  growth_rates (rows.map (fun r => r.total_papers))

/-! ## Helper lemmas -/

/-- Boolean pairwise check over a list of papers. -/
def pairwiseB (r : Paper → Paper → Bool) : List Paper → Bool
  | [] => true
  | p :: ps => ps.all (r p) && pairwiseB r ps

theorem pairwiseB_eq_true {r : Paper → Paper → Bool} :
    ∀ {l : List Paper}, List.Pairwise (fun p q => r p q = true) l →
      pairwiseB r l = true := by
  intro l h
  induction h with
  | nil => rfl
  | cons hhead _ ih =>
    simp only [pairwiseB, Bool.and_eq_true, List.all_eq_true]
    exact ⟨fun q hq => hhead q hq, ih⟩

/-- The spec's first dedup clause, on an output list: no two records share
the same non-empty id. -/
def spec_no_shared_nonempty_id (l : List Paper) : Bool :=
  pairwiseB (fun p q => !(pyTruthyStrOpt p.id && (p.id == q.id))) l

/-- The spec's second dedup clause: among records whose id is empty, no
two share the same normalized title. -/
def spec_idless_distinct_titles (l : List Paper) : Bool :=
  pairwiseB (fun p q =>
    !((!pyTruthyStrOpt p.id) && (!pyTruthyStrOpt q.id) &&
      (normalize_title p.title == normalize_title q.title))) l

theorem removeDupGo_titles (ps : List Paper) : ∀ (sI sT : List String),
    List.Pairwise (fun p q =>
        ((!pyTruthyStrOpt p.id) && (!pyTruthyStrOpt q.id) &&
          (normalize_title p.title == normalize_title q.title)) = false)
      (removeDupGo ps sI sT) ∧
    ∀ p ∈ removeDupGo ps sI sT, pyTruthyStrOpt p.id = false →
      normalize_title p.title ∉ sT ∧ normalize_title p.title ≠ "" := by
  induction ps with
  | nil =>
    intro sI sT
    refine ⟨by simp [removeDupGo], by simp [removeDupGo]⟩
  | cons p ps ih =>
    intro sI sT
    by_cases h1 : (pyTruthyStrOpt p.id && !(sI.contains (idStr p))) = true
    · have hptruthy : pyTruthyStrOpt p.id = true := by
        have h := h1
        rw [Bool.and_eq_true] at h
        exact h.1
      obtain ⟨ihp, ihm⟩ := ih (idStr p :: sI) sT
      rw [removeDupGo, if_pos h1]
      constructor
      · exact List.Pairwise.cons (fun q _ => by simp [hptruthy]) ihp
      · intro r hr hrid
        rcases List.mem_cons.mp hr with hre | hrm
        · rw [hre] at hrid; rw [hrid] at hptruthy; cases hptruthy
        · exact ihm r hrm hrid
    · by_cases h2 : (normalize_title p.title != "" &&
          !(sT.contains (normalize_title p.title))) = true
      · have ht1 : normalize_title p.title ≠ "" := by
          have h := h2
          rw [Bool.and_eq_true] at h
          simpa using h.1
        have ht2 : normalize_title p.title ∉ sT := by
          have h := h2
          rw [Bool.and_eq_true] at h
          simpa using h.2
        obtain ⟨ihp, ihm⟩ := ih sI (normalize_title p.title :: sT)
        rw [removeDupGo, if_neg h1, if_pos h2]
        constructor
        · refine List.Pairwise.cons (fun q hq => ?_) ihp
          by_cases hpid : pyTruthyStrOpt p.id = true
          · simp [hpid]
          · have hpid2 : pyTruthyStrOpt p.id = false := by
              cases h : pyTruthyStrOpt p.id
              · rfl
              · exact absurd h hpid
            by_cases hqid : pyTruthyStrOpt q.id = true
            · simp [hqid]
            · have hqid2 : pyTruthyStrOpt q.id = false := by
                cases h : pyTruthyStrOpt q.id
                · rfl
                · exact absurd h hqid
              have hqt := (ihm q hq hqid2).1
              have hne : normalize_title q.title ≠ normalize_title p.title :=
                fun he => hqt (by rw [he]; exact List.mem_cons_self _ _)
              simp [hpid2, hqid2]
              exact fun he => absurd he.symm hne
        · intro r hr hrid
          rcases List.mem_cons.mp hr with hre | hrm
          · rw [hre]; exact ⟨ht2, ht1⟩
          · have h3 := ihm r hrm hrid
            exact ⟨fun hmem => h3.1 (List.mem_cons_of_mem _ hmem), h3.2⟩
      · rw [removeDupGo, if_neg h1, if_neg h2]
        exact ih sI sT

theorem removeDupGo_idem (ps : List Paper) : ∀ (sI sT : List String),
    removeDupGo (removeDupGo ps sI sT) sI sT = removeDupGo ps sI sT := by
  induction ps with
  | nil => intro sI sT; rfl
  | cons p ps ih =>
    intro sI sT
    by_cases h1 : (pyTruthyStrOpt p.id && !(sI.contains (idStr p))) = true
    · rw [removeDupGo, if_pos h1, removeDupGo, if_pos h1, ih]
    · by_cases h2 : (normalize_title p.title != "" &&
          !(sT.contains (normalize_title p.title))) = true
      · rw [removeDupGo, if_neg h1, if_pos h2, removeDupGo, if_neg h1,
          if_pos h2, ih]
      · rw [removeDupGo, if_neg h1, if_neg h2, ih]

/-! ## Claim theorems -/

/-- Input refuting the first clause of the dedup invariant: two records
with the same non-empty id but different titles. -/
def c1_example : List Paper :=
  [{ id := some "A", title := some "X", year := some 2021, doi := .null,
     citation_count := some 0, open_access := .val false, venue := .val "",
     authors := .val [], search_term := "q", category := "core",
     source := "openalex" },
   { id := some "A", title := some "Y", year := some 2021, doi := .null,
     citation_count := some 0, open_access := .val false, venue := .val "",
     authors := .val [], search_term := "q", category := "core",
     source := "openalex" }]

/-- C1 (counterexample): the dedup invariant as claimed fails.  On two
input records with id `"A"` and titles `"X"` and `"Y"`, `remove_duplicates`
keeps both (the second is admitted by the title fallback because an
id-branch keep never records its title), so the output does contain two
records sharing the non-empty id `"A"`. -/
theorem c1_dedup_invariant_counterexample :
    ¬ (spec_no_shared_nonempty_id (remove_duplicates c1_example) = true ∧
       spec_idless_distinct_titles (remove_duplicates c1_example) = true) := by
  decide

/-- C1 (amended): among output records whose id is empty (falsy), no two
share the same normalized title; but records sharing a non-empty id are
not necessarily merged — a later record with an already-seen id is still
kept whenever its normalized title is non-empty and unseen. -/
theorem c1_dedup_invariant_amended (papers : List Paper) :
    spec_idless_distinct_titles (remove_duplicates papers) = true := by
  apply pairwiseB_eq_true
  have h := (removeDupGo_titles papers [] []).1
  exact h.imp (fun hpq => by simp [hpq])

/-- The three-record example of claim C2. -/
def c2_example : List Paper :=
  [{ id := some "A", title := some "Energy Hub Study", year := some 2021,
     doi := .null, citation_count := some 0, open_access := .val false,
     venue := .val "", authors := .val [], search_term := "q",
     category := "core", source := "openalex" },
   { id := some "A", title := some "Different Title", year := some 2021,
     doi := .null, citation_count := some 0, open_access := .val false,
     venue := .val "", authors := .val [], search_term := "q",
     category := "core", source := "openalex" },
   { id := some "", title := some "Energy Hub Study", year := some 2022,
     doi := .null, citation_count := some 0, open_access := .val false,
     venue := .val "", authors := .val [], search_term := "q",
     category := "core", source := "openalex" }]

/-- C2 (counterexample): on the claimed three-record input the
deduplicator does not return exactly 1 record. -/
theorem c2_dedup_example_counterexample :
    ¬ (remove_duplicates c2_example).length = 1 := by
  decide

/-- C2 (amended): on the three-record input, `remove_duplicates` returns
all 3 records unchanged: the first is kept by id, the second by the title
fallback (its title is new), and the third is kept because the first
record's title was never recorded by the id-branch keep. -/
theorem c2_dedup_example_amended :
    remove_duplicates c2_example = c2_example ∧
    (remove_duplicates c2_example).length = 3 := by
  constructor
  · decide
  · decide

/-- C3: the deduplicator is idempotent — applying it to its own output
returns that output unchanged, same records in the same order. -/
theorem c3_dedup_idempotent (papers : List Paper) :
    remove_duplicates (remove_duplicates papers) = remove_duplicates papers :=
  removeDupGo_idem papers [] []

theorem fetchGo_reqs_le (api : Nat → ApiOutcome) (q c : String) :
    ∀ (fuel page : Nat) (acc : List Paper) (reqs : Nat),
      (fetchGo api q c fuel page acc reqs).2 ≤ reqs + 1 + fuel := by
  intro fuel
  induction fuel with
  | zero =>
    intro page acc reqs
    rw [fetchGo]
    cases api page with
    | exn => simp
    | resp status results count =>
      dsimp only
      split_ifs <;> simp
  | succ f ih =>
    intro page acc reqs
    rw [fetchGo]
    cases api page with
    | exn =>
      show reqs + 1 ≤ reqs + 1 + (f + 1)
      omega
    | resp status results count =>
      dsimp only
      split_ifs
      · show reqs + 1 ≤ reqs + 1 + (f + 1)
        omega
      · show reqs + 1 ≤ reqs + 1 + (f + 1)
        omega
      · show reqs + 1 ≤ reqs + 1 + (f + 1)
        omega
      · show reqs + 1 ≤ reqs + 1 + (f + 1)
        omega
      · exact le_trans (ih (page + 1) _ (reqs + 1)) (by omega)

/-- C4: the paginated fetcher issues at most 10 page requests for every
response sequence; it also stops after one request when the first page
has zero results, and when the page index already reaches the page count
computed from the API-reported total. -/
theorem c4_pagination_cap :
    (∀ (api : Nat → ApiOutcome) (q c : String) (ys ye : Int),
      (search_works api q c ys ye).2 ≤ 10) ∧
    (∀ (api : Nat → ApiOutcome) (q c : String) (ys ye : Int) (n : Nat),
      api 1 = ApiOutcome.resp 200 [] n →
      (search_works api q c ys ye).2 = 1) ∧
    (∀ (api : Nat → ApiOutcome) (q c : String) (ys ye : Int)
        (results : List RawWork) (n : Nat),
      api 1 = ApiOutcome.resp 200 results n → results ≠ [] → n ≤ 200 →
      (search_works api q c ys ye).2 = 1) := by
  refine ⟨?_, ?_, ?_⟩
  · intro api q c ys ye
    exact fetchGo_reqs_le api q c 9 1 [] 0
  · intro api q c ys ye n h
    rw [search_works, fetchGo, h]
    simp
  · intro api q c ys ye results n h hne hcount
    rw [search_works, fetchGo, h]
    dsimp only
    rw [if_neg (by simp)]
    rw [if_neg (by simpa using hne)]
    split_ifs with h3 h4
    · rfl
    · rfl
    · exact absurd (by simpa using hcount) h4

/-- A simulated API always answering an empty page. -/
def c4_api_empty : Nat → ApiOutcome := fun _ => ApiOutcome.resp 200 [] 0

/-- A raw work with every field missing. -/
def c4_work : RawWork :=
  { id := .absent, display_name := .absent, publication_year := .absent,
    doi := .absent, cited_by_count := .absent, open_access := .absent,
    primary_location := .absent, authorships := .absent }

/-- A simulated API always answering one work with total count 1. -/
def c4_api_one : Nat → ApiOutcome := fun _ => ApiOutcome.resp 200 [c4_work] 1

theorem c4_pagination_cap_witness :
    (search_works c4_api_empty "energy hub" "core" 2004 2025).2 = 1 ∧
    (search_works c4_api_one "energy hub" "core" 2004 2025).2 = 1 ∧
    (search_works c4_api_one "energy hub" "core" 2004 2025).2 ≤ 10 :=
  ⟨c4_pagination_cap.2.1 c4_api_empty "energy hub" "core" 2004 2025 0 rfl,
   c4_pagination_cap.2.2 c4_api_one "energy hub" "core" 2004 2025 [c4_work] 1
     rfl (by decide) (by decide),
   c4_pagination_cap.1 c4_api_one "energy hub" "core" 2004 2025⟩

/-- C9: a transport-level exception or a non-200 status on any page makes
the pagination loop return immediately, with no retry, keeping exactly the
papers accumulated from earlier pages and counting the one failed request;
the failure is returned as a value, never raised further. -/
theorem c9_failure_aborts (api : Nat → ApiOutcome) (q c : String)
    (fuel page : Nat) (acc : List Paper) (reqs : Nat)
    (h : api page = ApiOutcome.exn ∨
      ∃ s results n, api page = ApiOutcome.resp s results n ∧ s ≠ 200) :
    fetchGo api q c fuel page acc reqs = (acc, reqs + 1) := by
  rcases h with h | ⟨s, results, n, h, hs⟩
  · rw [fetchGo, h]
  · rw [fetchGo, h]
    dsimp only
    rw [if_pos (by simpa using hs)]

/-- A simulated API whose every request raises a transport exception. -/
def c9_api_exn : Nat → ApiOutcome := fun _ => ApiOutcome.exn

theorem c9_failure_aborts_witness :
    fetchGo c9_api_exn "energy hub" "core" 9 1 [] 0 = ([], 1) :=
  c9_failure_aborts c9_api_exn "energy hub" "core" 9 1 [] 0 (Or.inl rfl)

theorem yearOk_bounds {p : Paper} (h : yearOk p = true) :
    ∃ y, p.year = some y ∧ 2020 ≤ y ∧ y ≤ 2025 := by
  cases hy : p.year with
  | none => simp [yearOk, hy] at h
  | some y =>
    simp [yearOk, hy] at h
    exact ⟨y, rfl, h.1.2, h.2⟩

theorem processPage_yearOk (works : List RawWork) (q c : String) :
    ∀ p ∈ (processPage works q c).1, yearOk p = true := by
  induction works with
  | nil => intro p hp; simp [processPage] at hp
  | cons w ws ih =>
    intro p hp
    rw [processPage] at hp
    cases hnw : normalize_work w q c with
    | error e => rw [hnw] at hp; simp at hp
    | ok p0 =>
      rw [hnw] at hp
      dsimp only at hp
      rcases List.mem_append.mp hp with h | h
      · by_cases hy : yearOk p0 = true
        · rw [if_pos hy] at h
          rw [List.mem_singleton.mp h]
          exact hy
        · rw [if_neg hy] at h
          cases h
      · exact ih p h

theorem fetchGo_yearOk (api : Nat → ApiOutcome) (q c : String) :
    ∀ (fuel page : Nat) (acc : List Paper) (reqs : Nat),
      (∀ p ∈ acc, yearOk p = true) →
      ∀ p ∈ (fetchGo api q c fuel page acc reqs).1, yearOk p = true := by
  intro fuel
  induction fuel with
  | zero =>
    intro page acc reqs hacc p hp
    rw [fetchGo] at hp
    cases hr : api page with
    | exn => rw [hr] at hp; exact hacc p hp
    | resp status results count =>
      rw [hr] at hp
      dsimp only at hp
      split_ifs at hp
      · exact hacc p hp
      · exact hacc p hp
      · rcases List.mem_append.mp hp with h | h
        · exact hacc p h
        · exact processPage_yearOk results q c p h
      · rcases List.mem_append.mp hp with h | h
        · exact hacc p h
        · exact processPage_yearOk results q c p h
      · rcases List.mem_append.mp hp with h | h
        · exact hacc p h
        · exact processPage_yearOk results q c p h
  | succ f ih =>
    intro page acc reqs hacc p hp
    rw [fetchGo] at hp
    cases hr : api page with
    | exn => rw [hr] at hp; exact hacc p hp
    | resp status results count =>
      rw [hr] at hp
      dsimp only at hp
      split_ifs at hp
      · exact hacc p hp
      · exact hacc p hp
      · rcases List.mem_append.mp hp with h | h
        · exact hacc p h
        · exact processPage_yearOk results q c p h
      · rcases List.mem_append.mp hp with h | h
        · exact hacc p h
        · exact processPage_yearOk results q c p h
      · refine ih (page + 1) (acc ++ (processPage results q c).1) (reqs + 1)
          ?_ p hp
        intro r hr2
        rcases List.mem_append.mp hr2 with h | h
        · exact hacc r h
        · exact processPage_yearOk results q c r h

/-- C5: every paper returned by either fetch strategy has a non-null year
with 2020 ≤ year ≤ 2025, for every response sequence and every year-range
argument pair. -/
theorem c5_year_filter_sound :
    (∀ (api : Nat → ApiOutcome) (q c : String) (ys ye : Int) (p : Paper),
      p ∈ (search_works api q c ys ye).1 →
      ∃ y, p.year = some y ∧ 2020 ≤ y ∧ y ≤ 2025) ∧
    (∀ (r : ApiOutcome) (q c : String) (ys ye : Int) (p : Paper),
      p ∈ search_by_abstract r q c ys ye →
      ∃ y, p.year = some y ∧ 2020 ≤ y ∧ y ≤ 2025) := by
  constructor
  · intro api q c ys ye p hp
    refine yearOk_bounds (fetchGo_yearOk api q c 9 1 [] 0 ?_ p hp)
    intro r hr
    cases hr
  · intro r q c ys ye p hp
    cases r with
    | exn => simp [search_by_abstract] at hp
    | resp status results count =>
      rw [search_by_abstract] at hp
      by_cases hs : (status == 200) = true
      · rw [if_pos hs] at hp
        obtain ⟨w, _, hf⟩ := List.mem_filterMap.mp hp
        cases hpy : w.publication_year.getN with
        | none => rw [hpy] at hf; cases hf
        | some y =>
          rw [hpy] at hf
          dsimp only at hf
          by_cases hc : (y != 0 && decide (2020 ≤ y) && decide (y ≤ 2025)) = true
          · rw [if_pos hc] at hf
            simp only [Bool.and_eq_true, bne_iff_ne, decide_eq_true_eq] at hc
            refine ⟨y, ?_, hc.1.2, hc.2⟩
            rw [← Option.some.inj hf]
          · rw [if_neg hc] at hf
            cases hf
      · rw [if_neg hs] at hp
        cases hp

/-- A raw work with year 2021 used to exercise both fetch strategies. -/
def c5_work : RawWork :=
  { id := .val "W1", display_name := .val "T", publication_year := .val 2021,
    doi := .absent, cited_by_count := .val 3,
    open_access := .val { is_oa := .val true },
    primary_location := .absent, authorships := .absent }

/-- A simulated API answering one 2021 work with total count 1. -/
def c5_api : Nat → ApiOutcome := fun _ => ApiOutcome.resp 200 [c5_work] 1

/-- The paper `search_works` produces from `c5_work`. -/
def c5_paper : Paper :=
  { id := some "W1", title := some "T", year := some 2021, doi := .null,
    citation_count := some 3, open_access := .val true, venue := .val "",
    authors := .val [], search_term := "energy hub", category := "core",
    source := "openalex" }

/-- The paper `search_by_abstract` produces from `c5_work`. -/
def c5_abstract_paper : Paper :=
  { id := some "W1", title := some "T", year := some 2021, doi := .absent,
    citation_count := some 3, open_access := .absent, venue := .absent,
    authors := .absent, search_term := "energy hub", category := "related",
    source := "openalex_abstract" }

theorem c5_year_filter_sound_witness :
    (∃ y, c5_paper.year = some y ∧ 2020 ≤ y ∧ y ≤ 2025) ∧
    (∃ y, c5_abstract_paper.year = some y ∧ 2020 ≤ y ∧ y ≤ 2025) :=
  ⟨c5_year_filter_sound.1 c5_api "energy hub" "core" 2004 2025 c5_paper
     (by decide),
   c5_year_filter_sound.2 (ApiOutcome.resp 200 [c5_work] 1) "energy hub"
     "related" 2020 2025 c5_abstract_paper (by decide)⟩

theorem summary_stats_row_totals {papers : List Paper} {y : Int}
    {r : SummaryRow} (h : summary_stats_row papers y = .ok r) :
    r.total_papers = r.core_papers + r.related_papers ∧
    r.total_citations = r.core_citations + r.related_citations ∧
    r.total_open_access = r.core_open_access + r.related_open_access := by
  rw [summary_stats_row] at h
  cases hc : py_sum_citations
      ((papers.filter (fun p => annual_year p == some y)).filter
        (fun p => p.category == "core")) with
  | error e => rw [hc] at h; cases h
  | ok cc =>
    rw [hc] at h
    dsimp only at h
    cases hr : py_sum_citations
        ((papers.filter (fun p => annual_year p == some y)).filter
          (fun p => p.category == "related")) with
    | error e => rw [hr] at h; cases h
    | ok rc =>
      rw [hr] at h
      dsimp only at h
      rw [← Except.ok.inj h]
      exact ⟨rfl, rfl, rfl⟩

theorem summaryRowsGo_mem {papers : List Paper} :
    ∀ (ys : List Int) (rows : List SummaryRow),
      summaryRowsGo papers ys = .ok rows →
      ∀ r ∈ rows, ∃ y, summary_stats_row papers y = .ok r := by
  intro ys
  induction ys with
  | nil =>
    intro rows h r hr
    rw [summaryRowsGo] at h
    rw [← Except.ok.inj h] at hr
    cases hr
  | cons y ys ih =>
    intro rows h r hr
    rw [summaryRowsGo] at h
    cases h1 : summary_stats_row papers y with
    | error e => rw [h1] at h; cases h
    | ok r0 =>
      rw [h1] at h
      dsimp only at h
      cases h2 : summaryRowsGo papers ys with
      | error e => rw [h2] at h; cases h
      | ok rs =>
        rw [h2] at h
        dsimp only at h
        rw [← Except.ok.inj h] at hr
        rcases List.mem_cons.mp hr with hre | hrm
        · exact ⟨y, by rw [hre]; exact h1⟩
        · exact ih rs h2 r hrm

/-- C6: in every row of the annual summary table, the total paper count,
total citation count and total open-access count are exactly the sums of
the corresponding core and related fields. -/
theorem c6_aggregator_totals (papers : List Paper) (rows : List SummaryRow)
    (h : annual_summary_stats papers = .ok rows) :
    ∀ r ∈ rows,
      r.total_papers = r.core_papers + r.related_papers ∧
      r.total_citations = r.core_citations + r.related_citations ∧
      r.total_open_access = r.core_open_access + r.related_open_access := by
  intro r hr
  obtain ⟨y, hy⟩ := summaryRowsGo_mem (years_present papers) rows h r hr
  exact summary_stats_row_totals hy

/-- One core paper of 2021 used to instantiate the aggregator claims. -/
def c6_paper : Paper :=
  { id := some "W1", title := some "T", year := some 2021, doi := .null,
    citation_count := some 7, open_access := .val true, venue := .val "",
    authors := .val [], search_term := "energy hub", category := "core",
    source := "openalex" }

/-- The summary row the aggregator produces for `[c6_paper]`. -/
def c6_row : SummaryRow :=
  { year := 2021, core_papers := 1, related_papers := 0, total_papers := 1,
    core_citations := 7, related_citations := 0, total_citations := 7,
    core_open_access := 1, related_open_access := 0, total_open_access := 1 }

theorem c6_aggregator_totals_witness :
    c6_row.total_papers = c6_row.core_papers + c6_row.related_papers ∧
    c6_row.total_citations = c6_row.core_citations + c6_row.related_citations ∧
    c6_row.total_open_access =
      c6_row.core_open_access + c6_row.related_open_access :=
  c6_aggregator_totals [c6_paper] [c6_row] rfl c6_row
    (List.mem_singleton.mpr rfl)

theorem growth_rates_get : ∀ (l : List Nat) (i : Nat) (h1 : i + 1 < l.length)
    (h2 : i < (growth_rates l).length),
    (growth_rates l).get ⟨i, h2⟩ =
      if 0 < l.get ⟨i, Nat.lt_of_succ_lt h1⟩ then
        ((l.get ⟨i + 1, h1⟩ : ℚ) - (l.get ⟨i, Nat.lt_of_succ_lt h1⟩ : ℚ)) /
          (l.get ⟨i, Nat.lt_of_succ_lt h1⟩ : ℚ) * 100
      else 0 := by
  intro l
  induction l with
  | nil => intro i h1 h2; simp at h1
  | cons a l ih =>
    intro i h1 h2
    cases l with
    | nil => simp at h1
    | cons b rest =>
      cases i with
      | zero => rfl
      | succ i =>
        have h1b : i + 1 < (b :: rest).length := Nat.succ_lt_succ_iff.mp h1
        have h2b : i < (growth_rates (b :: rest)).length := by
          have : (growth_rates (a :: b :: rest)).length =
              (growth_rates (b :: rest)).length + 1 := by
            rw [growth_rates]
            rfl
          omega
        exact ih i h1b h2b

/-- C7: in the year-over-year growth column, a year whose previous year's
combined total is 0 is reported as exactly 0 (never a division error or
infinity), and otherwise growth is exactly
`(current - previous) / previous * 100`. -/
theorem c7_growth_boundary (rows : List SummaryRow) (i : Nat)
    (h1 : i + 1 < rows.length) (h2 : i < (summary_growth rows).length) :
    ((rows.get ⟨i, Nat.lt_of_succ_lt h1⟩).total_papers = 0 →
      (summary_growth rows).get ⟨i, h2⟩ = 0) ∧
    (0 < (rows.get ⟨i, Nat.lt_of_succ_lt h1⟩).total_papers →
      (summary_growth rows).get ⟨i, h2⟩ =
        (((rows.get ⟨i + 1, h1⟩).total_papers : ℚ) -
            ((rows.get ⟨i, Nat.lt_of_succ_lt h1⟩).total_papers : ℚ)) /
          ((rows.get ⟨i, Nat.lt_of_succ_lt h1⟩).total_papers : ℚ) * 100) := by
  have hm1 : i + 1 < (rows.map (fun r => r.total_papers)).length := by
    simpa using h1
  have hg2 : (summary_growth rows).get ⟨i, h2⟩ =
      if 0 < (rows.get ⟨i, Nat.lt_of_succ_lt h1⟩).total_papers then
        (((rows.get ⟨i + 1, h1⟩).total_papers : ℚ) -
            ((rows.get ⟨i, Nat.lt_of_succ_lt h1⟩).total_papers : ℚ)) /
          ((rows.get ⟨i, Nat.lt_of_succ_lt h1⟩).total_papers : ℚ) * 100
      else 0 := by
    have h2m : i < (growth_rates (rows.map (fun r => r.total_papers))).length :=
      h2
    have hg := growth_rates_get (rows.map (fun r => r.total_papers)) i hm1 h2m
    simpa only [summary_growth, List.get_eq_getElem, List.getElem_map]
      using hg
  constructor
  · intro h0
    rw [hg2, if_neg]
    omega
  · intro hpos
    rw [hg2, if_pos hpos]

/-- A two-row summary table whose first year has combined total 0. -/
def c7_rows : List SummaryRow :=
  [{ year := 2020, core_papers := 0, related_papers := 0, total_papers := 0,
     core_citations := 0, related_citations := 0, total_citations := 0,
     core_open_access := 0, related_open_access := 0,
     total_open_access := 0 },
   { year := 2021, core_papers := 3, related_papers := 2, total_papers := 5,
     core_citations := 4, related_citations := 1, total_citations := 5,
     core_open_access := 1, related_open_access := 0,
     total_open_access := 1 }]

theorem c7_growth_boundary_witness :
    (summary_growth c7_rows).get ⟨0, by decide⟩ = 0 :=
  (c7_growth_boundary c7_rows 0 (by decide) (by decide)).1 (by decide)

/-- A raw work whose `open_access` key is present but null. -/
def c8_null_work : RawWork :=
  { id := .absent, display_name := .absent, publication_year := .absent,
    doi := .absent, cited_by_count := .absent, open_access := .null,
    primary_location := .absent, authorships := .absent }

/-- C8 (counterexample): normalization is not total over records with
null nested fields — a null `open_access` value makes
`work.get('open_access', {}).get('is_oa', False)` an attribute access on
`None`, so no Paper is produced. -/
theorem c8_normalization_counterexample :
    normalize_work c8_null_work "energy hub" "core" =
      Except.error ("AttributeError: NoneType object has no attribute get") :=
  rfl

/-- C8 (amended): normalization succeeds and is defensive for every raw
work whose `open_access` and `authorships` fields are not null (they may
be absent or proper values; every other field may be arbitrarily missing
or null): missing fields produce the claimed defaults, venue is read
through two levels of optional nesting defaulting to the empty string,
and the author list is the first-10 truncation of the authorships in
source order, hence never longer than 10. -/
theorem c8_normalization_amended (w : RawWork) (q c : String)
    (hoa : w.open_access ≠ PyField.null)
    (hau : w.authorships ≠ PyField.null) :
    ∃ p, normalize_work w q c = Except.ok p ∧
      (w.id = PyField.absent → p.id = some "") ∧
      (w.display_name = PyField.absent → p.title = some "") ∧
      (w.cited_by_count = PyField.absent → p.citation_count = some 0) ∧
      (w.open_access = PyField.absent → p.open_access = PyField.val false) ∧
      (w.primary_location = PyField.absent → p.venue = PyField.val "") ∧
      (∀ loc, w.primary_location = PyField.val loc →
        loc.source = PyField.absent → p.venue = PyField.val "") ∧
      (∀ l, w.authorships = PyField.val l →
        p.authors = PyField.val ((l.take 10).filterMap extract_one_author)) ∧
      (∀ al, p.authors = PyField.val al → al.length ≤ 10) := by
  have hEoa : ∃ oa, extract_open_access w = Except.ok oa ∧
      (w.open_access = PyField.absent → oa = PyField.val false) := by
    cases hx : w.open_access with
    | absent =>
      refine ⟨PyField.val false, ?_, fun _ => rfl⟩
      simp [extract_open_access, hx]
    | null => exact absurd hx hoa
    | val oa =>
      cases hy : oa.is_oa with
      | absent =>
        refine ⟨PyField.val false, ?_, ?_⟩
        · simp [extract_open_access, hx, hy]
        · intro h; cases h
      | null =>
        refine ⟨PyField.null, ?_, ?_⟩
        · simp [extract_open_access, hx, hy]
        · intro h; cases h
      | val b =>
        refine ⟨PyField.val b, ?_, ?_⟩
        · simp [extract_open_access, hx, hy]
        · intro h; cases h
  have hEau : ∃ auths, extract_authors w = Except.ok auths ∧
      (∀ l, w.authorships = PyField.val l →
        auths = (l.take 10).filterMap extract_one_author) ∧
      auths.length ≤ 10 := by
    cases hx : w.authorships with
    | absent =>
      refine ⟨[], ?_, ?_, by simp⟩
      · simp [extract_authors, hx]
      · intro l hl; cases hl
    | null => exact absurd hx hau
    | val l =>
      refine ⟨(l.take 10).filterMap extract_one_author, ?_, ?_, ?_⟩
      · simp [extract_authors, hx]
      · intro l2 hl2
        rw [PyField.val.inj hl2]
      · refine le_trans (List.length_filterMap_le _ _) ?_
        rw [List.length_take]
        exact min_le_left 10 l.length
  obtain ⟨oa, hoaeq, hoaabs⟩ := hEoa
  obtain ⟨auths, haueq, hauval, haulen⟩ := hEau
  refine ⟨{ id := w.id.get "", title := w.display_name.get "",
            year := w.publication_year.getN,
            doi := optToField w.doi.getN,
            citation_count := w.cited_by_count.get 0,
            open_access := oa,
            venue := optToField (extract_venue w),
            authors := .val auths,
            search_term := q, category := c, source := "openalex" },
    ?_, ?_, ?_, ?_, ?_, ?_, ?_, ?_, ?_⟩
  · simp [normalize_work, hoaeq, haueq]
  · intro h; dsimp only; rw [h]; rfl
  · intro h; dsimp only; rw [h]; rfl
  · intro h; dsimp only; rw [h]; rfl
  · intro h; dsimp only; exact hoaabs h
  · intro h; dsimp only; simp [extract_venue, h, optToField]
  · intro loc hl hs; dsimp only; simp [extract_venue, hl, hs, optToField]
  · intro l hl; dsimp only; rw [hauval l hl]
  · intro al hal
    dsimp only at hal
    rw [← PyField.val.inj hal]
    exact haulen

/-- A raw work with every field missing, for the amended C8 claim. -/
def c8_empty_work : RawWork :=
  { id := .absent, display_name := .absent, publication_year := .absent,
    doi := .absent, cited_by_count := .absent, open_access := .absent,
    primary_location := .absent, authorships := .absent }

theorem c8_normalization_amended_witness :
    ∃ p, normalize_work c8_empty_work "energy hub" "core" = Except.ok p ∧
      (c8_empty_work.id = PyField.absent → p.id = some "") ∧
      (c8_empty_work.display_name = PyField.absent → p.title = some "") ∧
      (c8_empty_work.cited_by_count = PyField.absent →
        p.citation_count = some 0) ∧
      (c8_empty_work.open_access = PyField.absent →
        p.open_access = PyField.val false) ∧
      (c8_empty_work.primary_location = PyField.absent →
        p.venue = PyField.val "") ∧
      (∀ loc, c8_empty_work.primary_location = PyField.val loc →
        loc.source = PyField.absent → p.venue = PyField.val "") ∧
      (∀ l, c8_empty_work.authorships = PyField.val l →
        p.authors = PyField.val ((l.take 10).filterMap extract_one_author)) ∧
      (∀ al, p.authors = PyField.val al → al.length ≤ 10) :=
  c8_normalization_amended c8_empty_work "energy hub" "core" (by decide)
    (by decide)

/-- C10: every paper produced by the abstract-search strategy carries no
`open_access` key, so the aggregator's open-access predicate (which reads
the key with default `False`) evaluates to false on it. -/
theorem c10_abstract_no_open_access (r : ApiOutcome) (q c : String)
    (ys ye : Int) (p : Paper) (hp : p ∈ search_by_abstract r q c ys ye) :
    p.open_access = PyField.absent ∧ oaTruthy p = false := by
  cases r with
  | exn => simp [search_by_abstract] at hp
  | resp status results count =>
    rw [search_by_abstract] at hp
    by_cases hs : (status == 200) = true
    · rw [if_pos hs] at hp
      obtain ⟨w, _, hf⟩ := List.mem_filterMap.mp hp
      cases hpy : w.publication_year.getN with
      | none => rw [hpy] at hf; cases hf
      | some y =>
        rw [hpy] at hf
        dsimp only at hf
        by_cases hc : (y != 0 && decide (2020 ≤ y) && decide (y ≤ 2025)) = true
        · rw [if_pos hc] at hf
          rw [← Option.some.inj hf]
          exact ⟨rfl, rfl⟩
        · rw [if_neg hc] at hf
          cases hf
    · rw [if_neg hs] at hp
      cases hp

/-- A raw work for the abstract strategy (year 2021, open access true in
the raw response). -/
def c10_work : RawWork :=
  { id := .val "W1", display_name := .val "T", publication_year := .val 2021,
    doi := .absent, cited_by_count := .val 3,
    open_access := .val { is_oa := .val true },
    primary_location := .absent, authorships := .absent }

/-- The paper `search_by_abstract` produces from `c10_work`. -/
def c10_paper : Paper :=
  { id := some "W1", title := some "T", year := some 2021, doi := .absent,
    citation_count := some 3, open_access := .absent, venue := .absent,
    authors := .absent, search_term := "energy hub", category := "related",
    source := "openalex_abstract" }

theorem c10_abstract_no_open_access_witness :
    c10_paper.open_access = PyField.absent ∧ oaTruthy c10_paper = false :=
  c10_abstract_no_open_access (ApiOutcome.resp 200 [c10_work] 1) "energy hub"
    "related" 2020 2025 c10_paper (by decide)
